import Mathlib

/-!
Shallow embedding of src/Utils/Agents.py (role-based medical agents driving a
chat-completion API) together with proofs about the embedded operations.

Python strings are modelled as Lean String, environment variables as
Option String (none = unset), dictionaries as functions into Option, and an
exception-raising computation as Except.  Attribute accesses on the remote
response object that can raise are modelled with Option fields (none = the
access raises).
-/

set_option maxRecDepth 4000

namespace MedAgents

/-- The opening brace character, referred to by code point. -/
def braceO : Char := Char.ofNat 123

/-- The closing brace character, referred to by code point. -/
def braceC : Char := Char.ofNat 125

/-- One piece of a parsed format template: literal text or a named placeholder.
Mirrors the (literal, field) pieces produced by the format-string parsing that
`PromptTemplate.from_template` and `str.format` perform. -/
inductive Part
  | lit (s : String)
  | var (name : String)
deriving DecidableEq

/-- The placeholder name of a part, when it is one. -/
def Part.varName : Part → Option String
  | .var n => some n
  | .lit _ => none

/-- Close the pending literal chunk (held as a reversed character list) into a
`Part.lit`, skipped when the chunk is empty so literal parts are never empty
and maximal literal runs form a single part. -/
def flushLit (cur : List Char) (acc : List Part) : List Part :=
  match cur with
  | [] => acc
  | _ => Part.lit (String.mk cur.reverse) :: acc

/-- Character scan of a Python format string, following the grammar used by
`str.format` and `string.Formatter.parse` on the field shapes this repository
uses (plain names, no conversion or format spec): a doubled brace is an escaped
literal brace, an opening brace starts a field name terminated by a closing
brace, and an unmatched brace is an error (Python raises ValueError, modelled
as none).  The second argument is none while scanning literal text and
`some nameRev` (name characters in reverse) while inside a field; the third
holds the pending literal chunk in reverse and the fourth the parts so far in
reverse. -/
def parseAux : List Char → Option (List Char) → List Char → List Part → Option (List Part)
  | [], none, cur, acc => some (flushLit cur acc).reverse
  | [], some _, _, _ => none
  | c :: rest, some nameRev, cur, acc =>
    if c = braceC then
      parseAux rest none [] (Part.var (String.mk nameRev.reverse) :: flushLit cur acc)
    else parseAux rest (some (c :: nameRev)) cur acc
  | [c], none, cur, acc =>
    if c = braceO then none
    else if c = braceC then none
    else some (flushLit (c :: cur) acc).reverse
  | c :: c2 :: rest, none, cur, acc =>
    if c = braceO then
      (if c2 = braceO then parseAux rest none (braceO :: cur) acc
       else parseAux (c2 :: rest) (some []) cur acc)
    else if c = braceC then
      (if c2 = braceC then parseAux rest none (braceC :: cur) acc
       else none)
    else parseAux (c2 :: rest) none (c :: cur) acc

/-- Parse a format template string into parts (none on a malformed template,
where Python raises ValueError). -/
def parseFmt (s : String) : Option (List Part) := parseAux s.data none [] []

/-- The placeholder names occurring in a parsed template, in order. -/
def varNames (ps : List Part) : List String := ps.filterMap Part.varName

/-- Python str.format over a parsed template: literal pieces are copied, each
placeholder is looked up in the keyword mapping, and a missing key raises
KeyError (modelled as an Except.error naming the key).  This is the rendering
that `self.prompt_template.format(medical_report=...)` performs in Agent.run. -/
def formatT : List Part → (String → Option String) → Except String String
  | [], _ => .ok ""
  | Part.lit s :: ps, kw => (formatT ps kw).map (fun r => s ++ r)
  | Part.var n :: ps, kw =>
    match kw n with
    | none => .error ("KeyError: " ++ n)
    | some v => (formatT ps kw).map (fun r => v ++ r)

/-- The Cardiologist template of create_prompt_template, split at its single
placeholder: the full dict entry is cardiologistPre ++ "{medical_report}" ++ specialistSuf. -/
def cardiologistPre : String := "\n                    Act like a cardiologist. You will receive a medical report of a patient.\n                    Task: Review the patient\x27s cardiac workup, including ECG, blood tests, Holter monitor results, and echocardiogram.\n                    Focus: Determine if there are any subtle signs of cardiac issues that could explain the patient’s symptoms. Rule out any underlying heart conditions, such as arrhythmias or structural abnormalities, that might be missed on routine testing.\n                    Recommendation: Provide guidance on any further cardiac testing or monitoring needed to ensure there are no hidden heart-related concerns. Suggest potential management strategies if a cardiac issue is identified.\n                    Please only return the possible causes of the patient\x27s symptoms and the recommended next steps.\n                    Medical Report: "

/-- The Psychologist template, split at its single placeholder. -/
def psychologistPre : String := "\n                    Act like a psychologist. You will receive a patient\x27s report.\n                    Task: Review the patient\x27s report and provide a psychological assessment.\n                    Focus: Identify any potential mental health issues, such as anxiety, depression, or trauma, that may be affecting the patient\x27s well-being.\n                    Recommendation: Offer guidance on how to address these mental health concerns, including therapy, counseling, or other interventions.\n                    Please only return the possible mental health issues and the recommended next steps.\n                    Patient\x27s Report: "

/-- The Pulmonologist template, split at its single placeholder. -/
def pulmonologistPre : String := "\n                    Act like a pulmonologist. You will receive a patient\x27s report.\n                    Task: Review the patient\x27s report and provide a pulmonary assessment.\n                    Focus: Identify any potential respiratory issues, such as asthma, COPD, or lung infections, that may be affecting the patient\x27s breathing.\n                    Recommendation: Offer guidance on how to address these respiratory concerns, including pulmonary function tests, imaging studies, or other interventions.\n                    Please only return the possible respiratory issues and the recommended next steps.\n                    Patient\x27s Report: "

/-- The common tail of each specialist template after the placeholder. -/
def specialistSuf : String := "\n                "

/-- The templates dictionary of create_prompt_template together with the
lookup templates[self.role]; none models the KeyError an unknown role raises. -/
def specialistTemplates (role : String) : Option String :=
  if role = "Cardiologist" then some (cardiologistPre ++ "{medical_report}" ++ specialistSuf)
  else if role = "Psychologist" then some (psychologistPre ++ "{medical_report}" ++ specialistSuf)
  else if role = "Pulmonologist" then some (pulmonologistPre ++ "{medical_report}" ++ specialistSuf)
  else none

/-- Python dict .get(key, default empty string), as used on extra_info. -/
def pyGet (info : String → Option String) (k : String) : String := (info k).getD ""

/-- Literal pieces of the MultidisciplinaryTeam f-string, up to the first report. -/
def mdtL1 : String := "\n                Act like a multidisciplinary team of healthcare professionals.\n                You will receive a medical report of a patient visited by a Cardiologist, Psychologist, and Pulmonologist.\n                Task: Review the patient\x27s medical report from the Cardiologist, Psychologist, and Pulmonologist, analyze them and come up with a list of 3 possible health issues of the patient.\n                Just return a list of bullet points of 3 possible health issues of the patient and for each issue provide the reason.\n                \n                Cardiologist Report: "

/-- Literal piece between the first and second report of the f-string. -/
def mdtL2 : String := "\n                Psychologist Report: "

/-- Literal piece between the second and third report of the f-string. -/
def mdtL3 : String := "\n                Pulmonologist Report: "

/-- Literal tail of the f-string after the third report. -/
def mdtL4 : String := "\n            "

/-- The f-string of the MultidisciplinaryTeam branch of create_prompt_template:
the three prior reports are substituted into the template text at construction
time, a missing key defaulting to the empty string via .get(key, empty). -/
def mdtTemplateString (info : String → Option String) : String :=
  mdtL1 ++ pyGet info "cardiologist_report" ++ mdtL2 ++ pyGet info "psychologist_report" ++ mdtL3 ++ pyGet info "pulmonologist_report" ++ mdtL4

/-- Exceptions Agent.__init__ can raise: KeyError from the template dict lookup,
ValueError from parsing a malformed template, RuntimeError for a missing key. -/
inductive InitError
  | keyError (role : String)
  | malformedTemplate
  | noApiKey (msg : String)
deriving DecidableEq

/-- Agent.create_prompt_template: the MultidisciplinaryTeam branch renders the
f-string and hands it to PromptTemplate.from_template, any other role is looked
up in the templates dict (KeyError when absent) and then parsed. -/
def createPromptTemplate (role : String) (extra_info : String → Option String) : Except InitError (List Part) :=
  if role = "MultidisciplinaryTeam" then
    match parseFmt (mdtTemplateString extra_info) with
    | none => .error .malformedTemplate
    | some ps => .ok ps
  else
    match specialistTemplates role with
    | none => .error (.keyError role)
    | some s =>
      match parseFmt s with
      | none => .error .malformedTemplate
      | some ps => .ok ps

/-- The relevant process environment; none models an unset variable. -/
structure Env where
  openrouterApiKey : Option String
  openaiApiKey : Option String
  openrouterModel : Option String
deriving DecidableEq

/-- Python truthiness of os.getenv output: None and the empty string are falsy. -/
def truthy : Option String → Bool
  | none => false
  | some s => s != ""

/-- Python `a or b` over optional strings, as in the api_key resolution. -/
def pyOr (a b : Option String) : Option String := if truthy a then a else b

/-- Python str of a bool, as interpolated into the RuntimeError message. -/
def pyBool : Bool → String
  | true => "True"
  | false => "False"

/-- The RuntimeError message built in Agent.__init__ when no API key is found;
it interpolates only the two presence booleans, never a key value. -/
def noKeyMessage (openrouterPresent openaiPresent : Bool) : String :=
  "No API key found. Environment presence: OPENROUTER_API_KEY=" ++ pyBool openrouterPresent ++ ", OPENAI_API_KEY=" ++ pyBool openaiPresent ++ ". Please set OPENROUTER_API_KEY or OPENAI_API_KEY environment variable (do not paste the key into code)."

/-- A constructed Agent; the OpenAI client it holds is represented by the api
key it was constructed with. -/
structure Agent where
  medical_report : Option String
  role : String
  prompt_template : List Part
  api_key : String
deriving DecidableEq

/-- Agent.__init__: store the fields, build the prompt template (raising for an
unknown role before anything else), then resolve the API key with Python `or`
semantics over the two environment variables, raising RuntimeError when the
resolved value is falsy (unset or empty). -/
def agentInit (env : Env) (medical_report : Option String) (role : String) (extra_info : String → Option String) : Except InitError Agent :=
  match createPromptTemplate role extra_info with
  | .error e => .error e
  | .ok tmpl =>
    match pyOr env.openrouterApiKey env.openaiApiKey with
    | none => .error (.noApiKey (noKeyMessage (truthy env.openrouterApiKey) (truthy env.openaiApiKey)))
    | some k =>
      if k = "" then .error (.noApiKey (noKeyMessage (truthy env.openrouterApiKey) (truthy env.openaiApiKey)))
      else .ok ⟨medical_report, role, tmpl, k⟩

/-- The Cardiologist subclass constructor. -/
def cardiologistInit (env : Env) (medical_report : String) : Except InitError Agent :=
  agentInit env (some medical_report) "Cardiologist" (fun _ => none)

/-- The Psychologist subclass constructor. -/
def psychologistInit (env : Env) (medical_report : String) : Except InitError Agent :=
  agentInit env (some medical_report) "Psychologist" (fun _ => none)

/-- The Pulmonologist subclass constructor. -/
def pulmonologistInit (env : Env) (medical_report : String) : Except InitError Agent :=
  agentInit env (some medical_report) "Pulmonologist" (fun _ => none)

/-- The MultidisciplinaryTeam subclass constructor: packs the three reports
into the extra_info mapping and delegates with no medical_report. -/
def multidisciplinaryTeamInit (env : Env) (cardiologist_report psychologist_report pulmonologist_report : String) : Except InitError Agent :=
  agentInit env none "MultidisciplinaryTeam" (fun k =>
    if k = "cardiologist_report" then some cardiologist_report
    else if k = "psychologist_report" then some psychologist_report
    else if k = "pulmonologist_report" then some pulmonologist_report
    else none)

/-- os.getenv of OPENROUTER_MODEL with the fixed published default. -/
def resolveModel (env : Env) : String := env.openrouterModel.getD "openai/gpt-oss-20b:free"

/-- A chat-completion request: model identifier and (role, content) messages. -/
structure Request where
  model : String
  messages : List (String × String)
deriving DecidableEq

/-- The message object of a choice; none for content models the attribute
access raising rather than yielding a string. -/
structure Message where
  content : Option String
deriving DecidableEq

/-- One choice of a completion response; a none field models the corresponding
attribute access raising (AttributeError on a missing attribute). -/
structure Choice where
  message : Option Message
  text : Option String
deriving DecidableEq

/-- The raw completion response; strForm is the str() rendering of the whole
object, used as the last-resort extraction. -/
structure Completion where
  choices : List Choice
  strForm : String
deriving DecidableEq

/-- The attempt completion.choices[0].message.content; none means one of the
accesses raised (IndexError on an empty choices list, or a missing attribute). -/
def tier1 (c : Completion) : Option String :=
  match c.choices.head? with
  | none => none
  | some ch =>
    match ch.message with
    | none => none
    | some m => m.content

/-- The attempt completion.choices[0].text; none means an access raised. -/
def tier2 (c : Completion) : Option String :=
  match c.choices.head? with
  | none => none
  | some ch => ch.text

/-- The nested try/except extraction of the assistant text in Agent.run:
primary field, then alternate field, then str of the whole response. -/
def extractContent (c : Completion) : String :=
  match tier1 c with
  | some s => s
  | none =>
    match tier2 c with
    | some s => s
    | none => c.strForm

/-- The question-mark character substituted by encode with errors=replace. -/
def replacementChar : Char := Char.ofNat 63

/-- The output sanitization of Agent.run: enc c is true when the stdout
encoding (UTF-8 when undeclared) can encode c.  A strict encode succeeds
exactly when every character is encodable, and then the original text is
returned; otherwise encode with errors=replace followed by decode yields the
text with each unencodable character replaced by a question mark. -/
def sanitize (enc : Char → Bool) (content : String) : String :=
  if content.data.all enc then content
  else String.mk (content.data.map (fun c => if enc c then c else replacementChar))

/-- Python str of the optional medical_report value handed to format. -/
def pyStr : Option String → String
  | none => "None"
  | some s => s

/-- The keyword mapping of prompt_template.format(medical_report=...). -/
def runKwargs (mr : Option String) : String → Option String :=
  fun n => if n = "medical_report" then some (pyStr mr) else none

/-- The observable outcome of Agent.run: lines printed to stdout, requests
issued to the API, and either the returned value (ok, with none for the Python
None return) or an uncaught exception propagating to the caller (error). -/
structure RunResult where
  output : List String
  requests : List Request
  result : Except String (Option String)

/-- Agent.run: print the role banner, render the template with
format(medical_report=...) outside the try block (so a rendering error
propagates and no request is made), then inside the try resolve the model,
issue the single request, extract the reply text and sanitize it; an error
raised by the call is caught, printed after the text Error occurred, and
turned into a None return value.  call models
self.client.chat.completions.create, error meaning the call raises. -/
def runAgent (env : Env) (call : Request → Except String Completion) (enc : Char → Bool) (ag : Agent) : RunResult :=
  let banner := ag.role ++ " is running..."
  match formatT ag.prompt_template (runKwargs ag.medical_report) with
  | .error e => ⟨[banner], [], .error e⟩
  | .ok prompt =>
    let req : Request := ⟨resolveModel env, [("user", prompt)]⟩
    match call req with
    | .error e => ⟨[banner, "Error occurred: " ++ e], [req], .ok none⟩
    | .ok completion => ⟨[banner], [req], .ok (some (sanitize enc (extractContent completion)))⟩

/-- The parsed Cardiologist template. -/
def cardiologistParts : List Part := [Part.lit cardiologistPre, Part.var "medical_report", Part.lit specialistSuf]

/-- The parsed Psychologist template. -/
def psychologistParts : List Part := [Part.lit psychologistPre, Part.var "medical_report", Part.lit specialistSuf]

/-- The parsed Pulmonologist template. -/
def pulmonologistParts : List Part := [Part.lit pulmonologistPre, Part.var "medical_report", Part.lit specialistSuf]

/-- The three specialist roles of the repository. -/
def specialistRoles : List String := ["Cardiologist", "Psychologist", "Pulmonologist"]

/-- needle occurs verbatim inside hay. -/
def substrOf (needle hay : String) : Prop := ∃ p s, hay = p ++ (needle ++ s)

/-- The string contains no brace character, hence no placeholder syntax. -/
def braceFreeS (s : String) : Bool := s.data.all (fun c => !(c == braceO) && !(c == braceC))

/-- An extra_info mapping whose cardiologist entry smuggles a placeholder token
into the aggregator f-string; the other two keys are absent. -/
def bracedInput : String → Option String :=
  fun k => if k = "cardiologist_report" then some "\x7bx\x7d" else none

example : parseFmt "ab" = some [Part.lit "ab"] := rfl
example : createPromptTemplate "Cardiologist" (fun _ => none) = .ok cardiologistParts := rfl
example : createPromptTemplate "Dermatologist" (fun _ => none) = .error (.keyError "Dermatologist") := rfl
example : parseFmt "a{x}b" = some [Part.lit "a", Part.var "x", Part.lit "b"] := rfl
example : parseFmt "a\x7b" = none := rfl
example : parseFmt "a\x7d b" = none := rfl
example : parseFmt "a\x7b\x7bz\x7d\x7d" = some [Part.lit "a\x7bz\x7d"] := rfl
example : formatT [Part.lit "a", Part.var "x", Part.lit "b"] (fun n => if n = "x" then some "V" else none) = .ok ("a" ++ ("V" ++ ("b" ++ ""))) := rfl
example : formatT [Part.var "y"] (fun n => if n = "x" then some "V" else none) = .error "KeyError: y" := rfl

/-- Two strings with the same character data are equal. -/
theorem stringDataEq {s t : String} (h : s.data = t.data) : s = t := by
  cases s; cases t; exact congrArg String.mk h

/-- Scanning a brace-free character list just extends the pending literal chunk. -/
theorem parseAux_noBrace : ∀ (l cur : List Char) (acc : List Part),
    (∀ c ∈ l, c ≠ braceO ∧ c ≠ braceC) →
    parseAux l none cur acc = some (flushLit (l.reverse ++ cur) acc).reverse
  | [], cur, acc, _ => by simp [parseAux]
  | [c], cur, acc, h => by
    have hc := h c (by simp)
    simp [parseAux, hc.1, hc.2]
  | c :: c2 :: rest, cur, acc, h => by
    have hc := h c (by simp)
    have ih := parseAux_noBrace (c2 :: rest) (c :: cur) acc
      (fun x hx => h x (List.mem_cons_of_mem _ hx))
    simp [parseAux, hc.1, hc.2, ih, List.append_assoc]

/-- A flushed literal chunk over an empty accumulator yields no placeholders. -/
theorem varNames_flushLit_nil (cur : List Char) : varNames (flushLit cur []).reverse = [] := by
  cases cur <;> simp [flushLit, varNames, Part.varName]

/-- Brace-freedom distributes over string append. -/
theorem braceFreeS_append (a b : String) : braceFreeS (a ++ b) = (braceFreeS a && braceFreeS b) := by
  simp [braceFreeS, String.data_append, List.all_append]

/-- Characters of a brace-free string are not braces. -/
theorem noBrace_of_braceFreeS {s : String} (h : braceFreeS s = true) :
    ∀ c ∈ s.data, c ≠ braceO ∧ c ≠ braceC := by
  intro c hc
  have hx := List.all_eq_true.mp h c hc
  constructor <;> intro he <;> subst he <;> simp at hx

/-- A substring occurrence survives prepending more text. -/
theorem substrOf_left_extend {n h : String} (x : String) (hs : substrOf n h) : substrOf n (x ++ h) := by
  obtain ⟨p, s, e⟩ := hs
  exact ⟨x ++ p, s, by rw [e, String.append_assoc]⟩

/-- Template selection for each specialist role evaluates to its parsed parts. -/
theorem createPromptTemplate_cardiologist (info : String → Option String) :
    createPromptTemplate "Cardiologist" info = .ok cardiologistParts := rfl

/-- Template selection for the Psychologist role. -/
theorem createPromptTemplate_psychologist (info : String → Option String) :
    createPromptTemplate "Psychologist" info = .ok psychologistParts := rfl

/-- Template selection for the Pulmonologist role. -/
theorem createPromptTemplate_pulmonologist (info : String → Option String) :
    createPromptTemplate "Pulmonologist" info = .ok pulmonologistParts := rfl

/-- The character data of a built string. -/
theorem data_mk (l : List Char) : (String.mk l).data = l := rfl

/-- The length of a built string is its character count. -/
theorem length_mk (l : List Char) : (String.mk l).length = l.length := rfl

/-- A fully encodable text passes the strict-encode test and is kept. -/
theorem sanitize_pos {enc : Char → Bool} {text : String} (h : text.data.all enc = true) :
    sanitize enc text = text := by
  unfold sanitize; rw [h]; simp

/-- A text failing the strict-encode test gets its bad characters replaced. -/
theorem sanitize_neg {enc : Char → Bool} {text : String} (h : text.data.all enc = false) :
    sanitize enc text = String.mk (text.data.map (fun c => if enc c then c else replacementChar)) := by
  unfold sanitize; rw [h]; simp

/-- Replacing once is enough for a single character. -/
theorem sanitizeChar_idem (enc : Char → Bool) (a : Char) :
    (if enc (if enc a then a else replacementChar) then (if enc a then a else replacementChar)
      else replacementChar) = (if enc a then a else replacementChar) := by
  by_cases ha : enc a <;> by_cases hr : enc replacementChar <;> simp [ha, hr]

/-- C2: in Agent.run, when a strict encode of the reply text in the stdout
encoding succeeds (every character encodable) the text is returned unchanged;
when it fails, every unencodable code point is replaced by the question-mark
placeholder and the result has length equal to (hence no longer than) the
input.  The sanitization is a total Lean function, so it raises nothing. -/
theorem claim2_output_sanitizer (enc : Char → Bool) (text : String) :
    (text.data.all enc = true → sanitize enc text = text) ∧
    (text.data.all enc = false →
      sanitize enc text = String.mk (text.data.map (fun c => if enc c then c else replacementChar)) ∧
      (sanitize enc text).length ≤ text.length) := by
  constructor
  · intro h; exact sanitize_pos h
  · intro h
    refine ⟨sanitize_neg h, ?_⟩
    rw [sanitize_neg h, length_mk, List.length_map]
    exact Nat.le_refl _

/-- Witness for C2 at a concrete encoding (ASCII) and text with one
unencodable character. -/
theorem claim2_output_sanitizer_witness :
    sanitize (fun c => decide (c.toNat < 128)) "café" = "caf?" := by
  have h := (claim2_output_sanitizer (fun c => decide (c.toNat < 128)) "café").2 (by decide)
  exact h.1.trans (by decide)

/-- C9: the output sanitizer is idempotent, and text fully representable in
the target encoding is returned unchanged. -/
theorem claim9_sanitizer_idempotent (enc : Char → Bool) (text : String) :
    sanitize enc (sanitize enc text) = sanitize enc text ∧
    (text.data.all enc = true → sanitize enc text = text) := by
  constructor
  · by_cases h : text.data.all enc
    · rw [sanitize_pos h, sanitize_pos h]
    · have h' : text.data.all enc = false := by simpa using h
      rw [sanitize_neg h']
      by_cases h2 : (text.data.map (fun c => if enc c then c else replacementChar)).all enc
      · exact sanitize_pos (by rw [data_mk]; exact h2)
      · have h2' : (text.data.map (fun c => if enc c then c else replacementChar)).all enc = false := by
          simpa using h2
        rw [sanitize_neg (by rw [data_mk]; exact h2')]
        apply congrArg String.mk
        rw [data_mk, List.map_map]
        apply List.map_congr_left
        intro a _
        exact sanitizeChar_idem enc a
  · intro h; exact sanitize_pos h

/-- Witness for C9 at a concrete encoding and texts. -/
theorem claim9_sanitizer_idempotent_witness :
    sanitize (fun c => decide (c.toNat < 128)) (sanitize (fun c => decide (c.toNat < 128)) "café") =
      sanitize (fun c => decide (c.toNat < 128)) "café" ∧
    sanitize (fun c => decide (c.toNat < 128)) "abc" = "abc" :=
  ⟨(claim9_sanitizer_idempotent (fun c => decide (c.toNat < 128)) "café").1,
   (claim9_sanitizer_idempotent (fun c => decide (c.toNat < 128)) "abc").2 (by decide)⟩

/-- C5: the reply-text extraction in Agent.run is three-tier: the first choice
message content when that chain of accesses succeeds, otherwise the first
choice text field, otherwise the str of the whole raw response.  extractContent
is a total function, so extraction itself never fails. -/
theorem claim5_extraction_order (c : Completion) :
    (∀ s, tier1 c = some s → extractContent c = s) ∧
    (tier1 c = none → ∀ s, tier2 c = some s → extractContent c = s) ∧
    (tier1 c = none → tier2 c = none → extractContent c = c.strForm) := by
  refine ⟨?_, ?_, ?_⟩ <;> intros <;> simp [extractContent, *]

/-- Witness for C5: a response with the primary field present, one with only
the alternate field, and one with neither. -/
theorem claim5_extraction_order_witness :
    extractContent ⟨[⟨some ⟨some "primary"⟩, some "alt"⟩], "raw"⟩ = "primary" ∧
    extractContent ⟨[⟨none, some "alt"⟩], "raw"⟩ = "alt" ∧
    extractContent ⟨[], "raw"⟩ = "raw" :=
  ⟨(claim5_extraction_order ⟨[⟨some ⟨some "primary"⟩, some "alt"⟩], "raw"⟩).1 "primary" rfl,
   (claim5_extraction_order ⟨[⟨none, some "alt"⟩], "raw"⟩).2.1 rfl "alt" rfl,
   (claim5_extraction_order ⟨[], "raw"⟩).2.2 rfl rfl⟩

/-- C1: an error raised by the chat-completion call inside Agent.run is caught
at the call boundary: run returns None instead of propagating, and the lines
run prints contain both the role name (in the opening banner) and the error
(after the text Error occurred). -/
theorem claim1_call_error_caught (env : Env) (enc : Char → Bool) (ag : Agent) (p err : String)
    (call : Request → Except String Completion)
    (hfmt : formatT ag.prompt_template (runKwargs ag.medical_report) = .ok p)
    (hcall : call ⟨resolveModel env, [("user", p)]⟩ = .error err) :
    (runAgent env call enc ag).result = .ok none ∧
    (∃ line ∈ (runAgent env call enc ag).output, substrOf ag.role line) ∧
    (∃ line ∈ (runAgent env call enc ag).output, substrOf err line) := by
  have hrun : runAgent env call enc ag =
      ⟨[ag.role ++ " is running...", "Error occurred: " ++ err],
        [⟨resolveModel env, [("user", p)]⟩], .ok none⟩ := by
    simp only [runAgent, hfmt, hcall]
  rw [hrun]
  exact ⟨rfl,
    ⟨ag.role ++ " is running...", by simp, ⟨"", " is running...", by simp⟩⟩,
    ⟨"Error occurred: " ++ err, by simp, ⟨"Error occurred: ", "", by simp⟩⟩⟩

/-- Witness for C1 at a concrete agent and a call that raises. -/
theorem claim1_call_error_caught_witness :
    (runAgent ⟨some "k", none, none⟩ (fun _ => Except.error "boom") (fun _ => true)
        ⟨some "r", "Cardiologist", [Part.var "medical_report"], "k"⟩).result = Except.ok none ∧
    (∃ line ∈ (runAgent ⟨some "k", none, none⟩ (fun _ => Except.error "boom") (fun _ => true)
        ⟨some "r", "Cardiologist", [Part.var "medical_report"], "k"⟩).output,
      substrOf "Cardiologist" line) ∧
    (∃ line ∈ (runAgent ⟨some "k", none, none⟩ (fun _ => Except.error "boom") (fun _ => true)
        ⟨some "r", "Cardiologist", [Part.var "medical_report"], "k"⟩).output,
      substrOf "boom" line) :=
  claim1_call_error_caught ⟨some "k", none, none⟩ (fun _ => true)
    ⟨some "r", "Cardiologist", [Part.var "medical_report"], "k"⟩ ("r" ++ "") "boom"
    (fun _ => Except.error "boom") rfl rfl

/-- C7: the single completion request issued by Agent.run carries the model
identifier resolved from the environment: the value of OPENROUTER_MODEL when
set, the fixed published default openai/gpt-oss-20b:free when unset. -/
theorem claim7_model_env_override (env : Env) (call : Request → Except String Completion)
    (enc : Char → Bool) (ag : Agent) (p : String)
    (hfmt : formatT ag.prompt_template (runKwargs ag.medical_report) = .ok p) :
    (runAgent env call enc ag).requests = [⟨resolveModel env, [("user", p)]⟩] ∧
    (∀ v, env.openrouterModel = some v → resolveModel env = v) ∧
    (env.openrouterModel = none → resolveModel env = "openai/gpt-oss-20b:free") := by
  refine ⟨?_, ?_, ?_⟩
  · simp only [runAgent, hfmt]
    split <;> rfl
  · intro v hv; simp [resolveModel, hv]
  · intro hv; simp [resolveModel, hv]

/-- Witness for C7 with the override set and with it unset. -/
theorem claim7_model_env_override_witness :
    (runAgent ⟨some "k", none, some "custom-model"⟩ (fun _ => Except.error "boom") (fun _ => true)
        ⟨some "r", "Cardiologist", [Part.lit "T"], "k"⟩).requests =
      [⟨"custom-model", [("user", "T" ++ "")]⟩] ∧
    (runAgent ⟨some "k", none, none⟩ (fun _ => Except.error "boom") (fun _ => true)
        ⟨some "r", "Cardiologist", [Part.lit "T"], "k"⟩).requests =
      [⟨"openai/gpt-oss-20b:free", [("user", "T" ++ "")]⟩] :=
  ⟨(claim7_model_env_override ⟨some "k", none, some "custom-model"⟩ (fun _ => Except.error "boom")
      (fun _ => true) ⟨some "r", "Cardiologist", [Part.lit "T"], "k"⟩ ("T" ++ "") rfl).1,
   (claim7_model_env_override ⟨some "k", none, none⟩ (fun _ => Except.error "boom")
      (fun _ => true) ⟨some "r", "Cardiologist", [Part.lit "T"], "k"⟩ ("T" ++ "") rfl).1⟩

/-- C10: the prompt is rendered by prompt_template.format before the
try/except block of Agent.run, so a rendering error (for example a template
holding a placeholder other than medical_report, as an aggregator template can
after construction-time substitution) propagates to the caller: run neither
returns None nor issues any request. -/
theorem claim10_render_error_propagates (env : Env) (call : Request → Except String Completion)
    (enc : Char → Bool) (ag : Agent) (e : String)
    (hfmt : formatT ag.prompt_template (runKwargs ag.medical_report) = .error e) :
    runAgent env call enc ag = ⟨[ag.role ++ " is running..."], [], .error e⟩ := by
  simp only [runAgent, hfmt]

/-- Witness for C10: an aggregator-style agent whose template kept an
unresolved placeholder named x; run propagates KeyError instead of None. -/
theorem claim10_render_error_propagates_witness :
    runAgent ⟨some "k", none, none⟩ (fun _ => Except.error "network down") (fun _ => true)
        ⟨none, "MultidisciplinaryTeam", [Part.var "x"], "k"⟩ =
      ⟨["MultidisciplinaryTeam is running..."], [], Except.error "KeyError: x"⟩ :=
  claim10_render_error_propagates ⟨some "k", none, none⟩ (fun _ => Except.error "network down")
    (fun _ => true) ⟨none, "MultidisciplinaryTeam", [Part.var "x"], "k"⟩ "KeyError: x" rfl

/-- C3: credential resolution in Agent.__init__.  With neither key variable
set, construction fails with the RuntimeError whose message is the fixed text
reporting both names as absent (it interpolates only the presence booleans,
so no secret value can appear); with only the fallback OPENAI_API_KEY set its
value becomes the api key; with both set the preferred OPENROUTER_API_KEY
value wins. -/
theorem claim3_credential_resolution (mdl : Option String) (mr : Option String)
    (info : String → Option String) (k k2 : String) (hk : k ≠ "") (hk2 : k2 ≠ "") :
    (agentInit ⟨none, none, mdl⟩ mr "Cardiologist" info =
        .error (.noApiKey (noKeyMessage false false)) ∧
      substrOf "OPENROUTER_API_KEY=False" (noKeyMessage false false) ∧
      substrOf "OPENAI_API_KEY=False" (noKeyMessage false false)) ∧
    agentInit ⟨none, some k2, mdl⟩ mr "Cardiologist" info =
      .ok ⟨mr, "Cardiologist", cardiologistParts, k2⟩ ∧
    agentInit ⟨some k, some k2, mdl⟩ mr "Cardiologist" info =
      .ok ⟨mr, "Cardiologist", cardiologistParts, k⟩ := by
  refine ⟨⟨?_, ?_, ?_⟩, ?_, ?_⟩
  · simp [agentInit, createPromptTemplate_cardiologist, pyOr, truthy]
  · exact ⟨"No API key found. Environment presence: ",
      ", OPENAI_API_KEY=False. Please set OPENROUTER_API_KEY or OPENAI_API_KEY environment variable (do not paste the key into code).", rfl⟩
  · exact ⟨"No API key found. Environment presence: OPENROUTER_API_KEY=False, ",
      ". Please set OPENROUTER_API_KEY or OPENAI_API_KEY environment variable (do not paste the key into code).", rfl⟩
  · simp [agentInit, createPromptTemplate_cardiologist, pyOr, truthy, hk2]
  · simp [agentInit, createPromptTemplate_cardiologist, pyOr, truthy, hk, hk2]

/-- Witness for C3 at distinguishable dummy key values. -/
theorem claim3_credential_resolution_witness :
    (agentInit ⟨none, none, none⟩ none "Cardiologist" (fun _ => none) =
        .error (.noApiKey (noKeyMessage false false)) ∧
      substrOf "OPENROUTER_API_KEY=False" (noKeyMessage false false) ∧
      substrOf "OPENAI_API_KEY=False" (noKeyMessage false false)) ∧
    agentInit ⟨none, some "oai-dummy", none⟩ none "Cardiologist" (fun _ => none) =
      .ok ⟨none, "Cardiologist", cardiologistParts, "oai-dummy"⟩ ∧
    agentInit ⟨some "or-dummy", some "oai-dummy", none⟩ none "Cardiologist" (fun _ => none) =
      .ok ⟨none, "Cardiologist", cardiologistParts, "or-dummy"⟩ :=
  claim3_credential_resolution none none (fun _ => none) "or-dummy" "oai-dummy"
    (by decide) (by decide)

/-- C8: constructing an Agent with a role outside the recognized four fails at
construction with the KeyError of the template dict lookup, whatever the
environment, the report and the extra info are — in particular even before and
independently of credential checking, and without any request being issued
(requests only ever arise in runAgent). -/
theorem claim8_unknown_role (env : Env) (mr : Option String) (info : String → Option String)
    (role : String) (h1 : role ≠ "Cardiologist") (h2 : role ≠ "Psychologist")
    (h3 : role ≠ "Pulmonologist") (h4 : role ≠ "MultidisciplinaryTeam") :
    agentInit env mr role info = .error (.keyError role) := by
  simp [agentInit, createPromptTemplate, specialistTemplates, h1, h2, h3, h4]

/-- Witness for C8: an unrecognized role fails even with credentials present. -/
theorem claim8_unknown_role_witness :
    agentInit ⟨some "k", some "k2", none⟩ (some "report") "Dermatologist" (fun _ => none) =
      .error (.keyError "Dermatologist") :=
  claim8_unknown_role ⟨some "k", some "k2", none⟩ (some "report") (fun _ => none)
    "Dermatologist" (by decide) (by decide) (by decide) (by decide)

/-- C6: for each specialist role, the selected template renders with any
subject text to a prompt that contains the subject verbatim and whose material
outside the subject is brace-free — every placeholder token of the template
(there is exactly one, medical_report) is substituted, so no unresolved
placeholder token of the template survives rendering. -/
theorem claim6_specialist_render (role : String) (report : String) (info : String → Option String)
    (hrole : role ∈ specialistRoles) :
    ∃ tmpl p s, createPromptTemplate role info = .ok tmpl ∧
      formatT tmpl (runKwargs (some report)) = .ok (p ++ (report ++ s)) ∧
      braceFreeS p = true ∧ braceFreeS s = true ∧
      substrOf report (p ++ (report ++ s)) := by
  simp only [specialistRoles, List.mem_cons, List.not_mem_nil, or_false] at hrole
  rcases hrole with h | h | h <;> subst h
  · exact ⟨cardiologistParts, cardiologistPre, specialistSuf ++ "", rfl, rfl, rfl, rfl,
      ⟨cardiologistPre, specialistSuf ++ "", rfl⟩⟩
  · exact ⟨psychologistParts, psychologistPre, specialistSuf ++ "", rfl, rfl, rfl, rfl,
      ⟨psychologistPre, specialistSuf ++ "", rfl⟩⟩
  · exact ⟨pulmonologistParts, pulmonologistPre, specialistSuf ++ "", rfl, rfl, rfl, rfl,
      ⟨pulmonologistPre, specialistSuf ++ "", rfl⟩⟩

/-- Witness for C6 at the Cardiologist role and a concrete report. -/
theorem claim6_specialist_render_witness :
    ∃ tmpl p s, createPromptTemplate "Cardiologist" (fun _ => none) = .ok tmpl ∧
      formatT tmpl (runKwargs (some "Patient reports palpitations")) =
        .ok (p ++ ("Patient reports palpitations" ++ s)) ∧
      braceFreeS p = true ∧ braceFreeS s = true ∧
      substrOf "Patient reports palpitations" (p ++ ("Patient reports palpitations" ++ s)) :=
  claim6_specialist_render "Cardiologist" "Patient reports palpitations" (fun _ => none)
    (by decide)

/-- C4 counterexample: with a prior output that itself contains a brace-written
token (cardiologist_report set to the literal text brace x brace, the other two
keys absent), the construction-time rendering of the aggregator template
produces a string that PromptTemplate.from_template parses with the unresolved
placeholder x — refuting the claim that rendering with three named prior
outputs always yields a prompt with no unresolved placeholder tokens. -/
theorem claim4_counterexample :
    (createPromptTemplate "MultidisciplinaryTeam" bracedInput).map varNames = Except.ok ["x"] := rfl

/-- C4 (amended): provided the three named prior outputs are brace-free, the
aggregator rendering succeeds, contains all three outputs verbatim, and its
parsed template has no placeholder left; a key missing from the mapping is
substituted as the empty string rather than failing. -/
theorem claim4_aggregator_render (info : String → Option String)
    (h1 : braceFreeS (pyGet info "cardiologist_report") = true)
    (h2 : braceFreeS (pyGet info "psychologist_report") = true)
    (h3 : braceFreeS (pyGet info "pulmonologist_report") = true) :
    ∃ ps, createPromptTemplate "MultidisciplinaryTeam" info = .ok ps ∧ varNames ps = [] ∧
      substrOf (pyGet info "cardiologist_report") (mdtTemplateString info) ∧
      substrOf (pyGet info "psychologist_report") (mdtTemplateString info) ∧
      substrOf (pyGet info "pulmonologist_report") (mdtTemplateString info) ∧
      (∀ k2, info k2 = none → pyGet info k2 = "") := by
  have hfree : braceFreeS (mdtTemplateString info) = true := by
    have b1 : braceFreeS mdtL1 = true := rfl
    have b2 : braceFreeS mdtL2 = true := rfl
    have b3 : braceFreeS mdtL3 = true := rfl
    have b4 : braceFreeS mdtL4 = true := rfl
    simp [mdtTemplateString, braceFreeS_append, b1, b2, b3, b4, h1, h2, h3]
  have hparse : parseFmt (mdtTemplateString info) =
      some (flushLit ((mdtTemplateString info).data.reverse ++ []) []).reverse :=
    parseAux_noBrace _ [] [] (noBrace_of_braceFreeS hfree)
  refine ⟨(flushLit ((mdtTemplateString info).data.reverse ++ []) []).reverse,
    ?_, varNames_flushLit_nil _, ?_, ?_, ?_, fun k2 hk2 => by simp [pyGet, hk2]⟩
  · unfold createPromptTemplate
    rw [if_pos rfl, hparse]
  · exact ⟨mdtL1,
      mdtL2 ++ pyGet info "psychologist_report" ++ mdtL3 ++ pyGet info "pulmonologist_report" ++ mdtL4,
      stringDataEq (by simp [mdtTemplateString, String.data_append, List.append_assoc])⟩
  · exact ⟨mdtL1 ++ pyGet info "cardiologist_report" ++ mdtL2,
      mdtL3 ++ pyGet info "pulmonologist_report" ++ mdtL4,
      stringDataEq (by simp [mdtTemplateString, String.data_append, List.append_assoc])⟩
  · exact ⟨mdtL1 ++ pyGet info "cardiologist_report" ++ mdtL2 ++ pyGet info "psychologist_report" ++ mdtL3,
      mdtL4,
      stringDataEq (by simp [mdtTemplateString, String.data_append, List.append_assoc])⟩

/-- Witness for the amended C4 at the all-keys-missing mapping: every report
defaults to the empty string and rendering still succeeds placeholder-free. -/
theorem claim4_aggregator_render_witness :
    ∃ ps, createPromptTemplate "MultidisciplinaryTeam" (fun _ => none) = .ok ps ∧
      varNames ps = [] ∧
      substrOf (pyGet (fun _ => none) "cardiologist_report") (mdtTemplateString (fun _ => none)) ∧
      substrOf (pyGet (fun _ => none) "psychologist_report") (mdtTemplateString (fun _ => none)) ∧
      substrOf (pyGet (fun _ => none) "pulmonologist_report") (mdtTemplateString (fun _ => none)) ∧
      (∀ k2, (fun _ => (none : Option String)) k2 = none → pyGet (fun _ => none) k2 = "") :=
  claim4_aggregator_render (fun _ => none) rfl rfl rfl

end MedAgents
